import Mathlib

/-!
# Verification of the dex-analyzer aggregation and analytics core

A shallow embedding, in Lean 4, of the parts of the `dex-analyzer`
repository that its specification makes checkable claims about:

* the `GeckoTerminalClient` rate limiter (`_rate_limit_check`),
* the exact-timestamp series aligner used for correlation and beta
  (`compute_correlation_matrix_from_dataframes`, `compute_beta_from_dataframes`),
* the OHLCV backward-pagination loop and price-series assembly
  (`GeckoTerminalClient.get_price_bars`),
* the Moralis price fetcher and its mock-data fallback
  (`MoralisPriceFetcher.get_price_bars`),
* the pool filter (`BaseDEXClient.filter_pairs`),
* the volatility metric (`calculate_cross_price_volatility_from_df`),
* the Meteora position fetch (`SolanaMeteoraClient.get_all_positions_for_user`)
  against the `Position` dataclass,
* and, modelled from the specification text only (no such code exists under
  `src/`), the tolerance-mode aligner.

Floating-point values are embedded as rationals; a float `NaN` outcome is
embedded as `none` of an `Option`.  Python timestamps (`time.time()`, epoch
seconds) are embedded as integers or naturals, as noted at each definition.
-/

/- ----------------------------------------------------------------------
   Rate limiter: `GeckoTerminalClient._rate_limit_check`
   (src/clients/geckoterminal.py, lines 32-40)

       current_time = time.time()
       self.calls = [call for call in self.calls if current_time - call < 60]
       if len(self.calls) >= self.rate_limit:
           sleep_time = 60 - (current_time - self.calls[0])
           if sleep_time > 0:
               time.sleep(sleep_time)
       self.calls.append(current_time)

   Times are embedded as integers (seconds).  The HTTP request fires right
   after `_rate_limit_check` returns; request durations are not modelled,
   so an invocation may start at the instant the previous request fired.
   ---------------------------------------------------------------------- -/

/-- The purge step: keep the recorded call timestamps strictly younger
than 60 seconds. -/
def purgeCalls (now : Int) (calls : List Int) : List Int :=
  calls.filter (fun call => now - call < 60)

/-- One invocation of `_rate_limit_check` at wall-clock time `now` with
recorded timestamps `calls`.  Returns the time at which the guarded call
actually fires (after the optional sleep) and the new recorded list.
Note that the code appends `current_time` - the time at which the check
STARTED - to the list, not the post-sleep fire time. -/
def rate_limit_check (rate_limit : Nat) (now : Int) (calls : List Int) :
    Int × List Int :=
  let purged := purgeCalls now calls
  let fire :=
    if rate_limit ≤ purged.length then
      let sleep_time := 60 - (now - purged.headI)
      if 0 < sleep_time then now + sleep_time else now
    else now
  (fire, purged ++ [now])

/-- The fire times of a sequence of guarded calls whose rate-limit checks
start at the given wall-clock times, threading the recorded-timestamp list
through the fetcher instance (initially empty for a fresh client). -/
def limiterFires (rate_limit : Nat) : List Int → List Int → List Int
  | _calls, [] => []
  | calls, t :: ts =>
    let r := rate_limit_check rate_limit t calls
    r.1 :: limiterFires rate_limit r.2 ts

/-- A sequence of check-start times is a valid single-threaded trace when
each check starts no earlier than the previous guarded call fired (the
client is synchronous: the next request is only issued after the previous
one). -/
def validTrace (rate_limit : Nat) : List Int → List Int → Bool
  | _calls, [] => true
  | calls, t :: ts =>
    let r := rate_limit_check rate_limit t calls
    match ts with
    | [] => true
    | t2 :: _ => decide (r.1 ≤ t2) && validTrace rate_limit r.2 ts

/-- How many guarded calls fire inside the 60-second window `[w, w + 60)`. -/
def windowCalls (fires : List Int) (w : Int) : Nat :=
  (fires.filter (fun a => decide (w ≤ a) && decide (a < w + 60))).length

/-- Boolean check that a list of times strictly increases. -/
def strictlyIncreasing : List Int → Bool
  | [] => true
  | [_] => true
  | t :: t2 :: ts => decide (t < t2) && strictlyIncreasing (t2 :: ts)

/-- A concrete trace of 61 check-start times, one second apart within each
burst: thirty-one checks starting at seconds 0,...,30 and then thirty
checks starting at seconds 60,...,89. -/
def limiterTrace : List Int :=
  ((List.range 31).map (fun i => (i : Int))) ++
    ((List.range 30).map (fun i => (60 : Int) + i))

/-- C1: the rate-limiting claim is false on the code.  The 61-call trace
`limiterTrace` is valid (each check starts no earlier than the previous
call fired, and start times strictly increase), yet 31 guarded calls fire
inside the sliding window `[60, 120)` with the configured limit 30.  The
cause: the code records the PRE-sleep check time, so after the 31st call
sleeps 30 seconds and fires at t=60, its record (t=30) ages out 30 seconds
too early and each subsequent check under-counts the window. -/
theorem rate_limit_sliding_window_violated :
    validTrace 30 [] limiterTrace = true ∧
      strictlyIncreasing limiterTrace = true ∧
      windowCalls (limiterFires 30 [] limiterTrace) 60 = 31 ∧
      30 < windowCalls (limiterFires 30 [] limiterTrace) 60 := by
  refine ⟨by decide, by decide, by decide, by decide⟩

/- ----------------------------------------------------------------------
   Exact-mode series alignment:
   `compute_correlation_matrix_from_dataframes` (src/utils.py lines 253-279
   and src/utils/analyzer.py lines 7-34)

       combined = pd.concat(
           [df.set_index("timestamp")["close"].rename(token_symbol)
            for token_symbol, df in data_list],
           axis=1, join="inner")

   `pd.concat(..., axis=1, join="inner")` intersects the indexes of the
   input series one after the other.  Timestamps are embedded as integers;
   a series index is the list of its timestamps (unique within a series,
   per the PriceBar data-model invariant).
   ---------------------------------------------------------------------- -/

/-- The time axis of the inner-join concatenation: the first index,
intersected with each following index in turn.  Defined for a non-empty
`data_list`; the code returns an empty frame before reaching the join when
`data_list` is empty. -/
def alignExactAxis : List (List Int) → List Int
  | [] => []
  | first :: rest =>
    rest.foldl (fun acc s => acc.filter (fun t => decide (t ∈ s))) first

theorem alignExactAxis_foldl_mem (x : Int) (rest : List (List Int)) :
    ∀ acc : List Int,
      x ∈ rest.foldl (fun acc s => acc.filter (fun t => decide (t ∈ s))) acc ↔
        x ∈ acc ∧ ∀ s ∈ rest, x ∈ s := by
  induction rest with
  | nil => intro acc; simp
  | cons s rest ih =>
    intro acc
    rw [List.foldl_cons, ih]
    simp only [List.mem_filter, decide_eq_true_eq, List.mem_cons]
    constructor
    · rintro ⟨⟨hacc, hs⟩, hrest⟩
      exact ⟨hacc, fun u hu => hu.elim (fun h => h ▸ hs) (hrest u)⟩
    · rintro ⟨hacc, hall⟩
      exact ⟨⟨hacc, hall s (Or.inl rfl)⟩, fun u hu => hall u (Or.inr hu)⟩

/-- C2: in exact alignment mode, for every non-empty list of input series
the aligned time axis holds exactly the timestamps present in every input
series (inner join across all inputs). -/
theorem alignExactAxis_eq_inner_join (series : List (List Int))
    (hne : series ≠ []) (x : Int) :
    x ∈ alignExactAxis series ↔ ∀ s ∈ series, x ∈ s := by
  match series, hne with
  | first :: rest, _ =>
    rw [alignExactAxis, alignExactAxis_foldl_mem]
    simp only [List.mem_cons]
    constructor
    · rintro ⟨hf, hrest⟩
      exact fun s hs => hs.elim (fun h => h ▸ hf) (hrest s)
    · intro hall
      exact ⟨hall first (Or.inl rfl), fun s hs => hall s (Or.inr hs)⟩

/-- Witness for C2 at the input from the specification: the series with
timestamps `[1, 2, 3]` and `[2, 3, 4]` align to exactly `[2, 3]`. -/
theorem alignExactAxis_eq_inner_join_witness :
    alignExactAxis [[1, 2, 3], [2, 3, 4]] = [2, 3] ∧
      (2 ∈ alignExactAxis [[1, 2, 3], [2, 3, 4]] ↔
        ∀ s ∈ [[(1 : Int), 2, 3], [2, 3, 4]], 2 ∈ s) := by
  exact ⟨by decide,
    alignExactAxis_eq_inner_join [[1, 2, 3], [2, 3, 4]] (by decide) 2⟩

/- ----------------------------------------------------------------------
   Pool filter: `BaseDEXClient.filter_pairs`
   (src/clients/base_client.py lines 26-55) with the symbol sets set in
   `BaseDEXClient.__init__` (lines 12-13).
   ---------------------------------------------------------------------- -/

/-- `LiquidityPair` (src/models/pair.py).  `tvl` and `volume` are floats
in the source, embedded as rationals. -/
structure LiquidityPair where
  address : String
  token0_symbol : String
  token0_address : String
  token1_symbol : String
  token1_address : String
  tvl : Rat
  volume : Rat
deriving DecidableEq

/-- `self.stablecoins` from `BaseDEXClient.__init__`. -/
def baseStablecoins : List String := ["USDC", "USDT", "DAI"]

/-- `self.pivots` from `BaseDEXClient.__init__`. -/
def basePivots : List String := ["SOL", "RAY", "JLP", "JUP"]

/-- `BaseDEXClient.filter_pairs`, branch for branch.  Note that the
`no_pivots and not no_stables` branch of the source tests membership in
`self.stablecoins`, exactly as the `no_stables and not no_pivots` branch
does. -/
def filter_pairs (stablecoins pivots : List String)
    (pairs : List LiquidityPair) (min_tvl min_volume : Rat)
    (no_stables no_pivots : Bool) : List LiquidityPair :=
  if no_stables && no_pivots then
    pairs.filter (fun pair =>
      !(stablecoins.contains pair.token0_symbol) &&
      !(stablecoins.contains pair.token1_symbol) &&
      !(pivots.contains pair.token0_symbol) &&
      !(pivots.contains pair.token1_symbol) &&
      decide (min_tvl ≤ pair.tvl) && decide (min_volume ≤ pair.volume))
  else if no_stables && !no_pivots then
    pairs.filter (fun pair =>
      !(stablecoins.contains pair.token0_symbol) &&
      !(stablecoins.contains pair.token1_symbol) &&
      decide (min_tvl ≤ pair.tvl) && decide (min_volume ≤ pair.volume))
  else if no_pivots && !no_stables then
    pairs.filter (fun pair =>
      !(stablecoins.contains pair.token0_symbol) &&
      !(stablecoins.contains pair.token1_symbol) &&
      decide (min_tvl ≤ pair.tvl) && decide (min_volume ≤ pair.volume))
  else
    pairs.filter (fun pair =>
      decide (min_tvl ≤ pair.tvl) && decide (min_volume ≤ pair.volume))

/-- A pool whose first leg is the pivot token SOL (not a stablecoin), with
TVL and volume above the default minimums. -/
def solLegPool : LiquidityPair :=
  { address := "pool-sol-foo"
    token0_symbol := "SOL"
    token0_address := "So11111111111111111111111111111111111111112"
    token1_symbol := "FOO"
    token1_address := "foo-mint"
    tvl := 20000
    volume := 20000 }

/-- C4: the filter-conjunction claim is false on `filter_pairs`.  With
`no_pivots=True` and `no_stables=False` (default minimums 10000 and 5000),
a pool whose first leg is the pivot token SOL is RETAINED: the
`no_pivots and not no_stables` branch of the source tests the stablecoin
set instead of the pivot set, so `no_pivots` alone never excludes a
pivot-leg pool.  (The TVL conjunct is checked in every branch: the same
pool with TVL 5000 is excluded in all four flag combinations.) -/
theorem filter_pairs_no_pivots_branch_keeps_pivot_leg :
    filter_pairs baseStablecoins basePivots [solLegPool] 10000 5000
        false true = [solLegPool] ∧
      "SOL" ∈ basePivots ∧ "SOL" ∉ baseStablecoins ∧
      (∀ ns np : Bool,
        filter_pairs baseStablecoins basePivots
          [{ solLegPool with tvl := 5000 }] 10000 5000 ns np = []) := by
  refine ⟨by decide, by decide, by decide, ?_⟩
  intro ns np
  cases ns <;> cases np <;> decide

/- ----------------------------------------------------------------------
   OHLCV backfill: `GeckoTerminalClient.get_price_bars`
   (src/clients/geckoterminal.py lines 158-246)

   One iteration of the while-loop, after `_make_request`:

       if not response or "data" not in response or "attributes" not in response["data"]:
           break
       ohlcv_list = attributes.get("ohlcv_list", [])
       if not ohlcv_list:
           break
       all_ohlcv_list.extend(ohlcv_list)
       if len(ohlcv_list) == limit and (start_timestamp is None or
               int(...ohlcv_list[-1][0]...) > start_timestamp):
           earliest_timestamp = int(...ohlcv_list[-1][0]...)
           if start_timestamp and earliest_timestamp <= start_timestamp:
               break
           before_timestamp = earliest_timestamp - 1
           params["before_timestamp"] = before_timestamp
       else:
           break

   A raw OHLCV record; the fields embed the source columns
   timestamp, open, high, low, close, volume (floats as rationals).
   The `pd.to_datetime(x, unit="s").timestamp()` round-trip on an integer
   number of seconds is the identity and is not modelled separately.
   ---------------------------------------------------------------------- -/

structure OhlcvRow where
  ts : Int
  o : Rat
  hi : Rat
  lo : Rat
  c : Rat
  v : Rat
deriving DecidableEq

/-- Python truthiness of an optional number (`None` and `0` are falsy). -/
def pyTruthy : Option Int → Bool
  | none => false
  | some n => n != 0

/-- One upstream response to the OHLCV endpoint: either a payload missing
the `data`/`attributes` envelope (also the `{}` that `_make_request`
returns on a transport error), or the `ohlcv_list` of a well-formed
payload.  GeckoTerminal returns bars newest-first, so the page's oldest
record is its last element (`ohlcv_list[-1]`). -/
inductive GtResp where
  | invalid
  | ohlcv (rows : List OhlcvRow)
deriving DecidableEq

/-- The decision the loop body takes after one response: stop, or issue
another request with an updated `before_timestamp` cursor. -/
inductive GtStep where
  | stop
  | more (newBefore : Int)
deriving DecidableEq


/-- The `start_timestamp is None or oldest > start_timestamp` part of the
loop-continuation test. -/
def startCheck (start_timestamp : Option Int) (lastTs : Int) : Bool :=
  match start_timestamp with
  | none => true
  | some s => decide (s < lastTs)

theorem startCheck_eq_true_iff (start_timestamp : Option Int) (t : Int) :
    startCheck start_timestamp t = true ↔
      ∀ s, start_timestamp = some s → s < t := by
  cases start_timestamp <;> simp [startCheck]

/-- The control decision of one `get_price_bars` loop iteration, straight
from the source lines quoted above. -/
def gtStep (limit : Nat) (start_timestamp : Option Int) (resp : GtResp) :
    GtStep :=
  match resp with
  | .invalid => .stop
  | .ohlcv rows =>
    match rows.getLast? with
    | none => .stop
    | some lastRow =>
      if (rows.length == limit) && startCheck start_timestamp lastRow.ts then
        if pyTruthy start_timestamp &&
            decide (lastRow.ts ≤ start_timestamp.getD 0) then
          .stop
        else
          .more (lastRow.ts - 1)
      else
        .stop

/-- C7: backward-pagination control.  The loop issues another request,
with the `before` cursor moved to one second before the oldest timestamp
of the page, exactly when the page is well-formed and non-empty, holds
exactly `limit` records, and its oldest record is still newer than the
requested start boundary; in every other case (malformed page, empty
page, fewer/other than `limit` records, start boundary reached or passed)
it stops. -/
theorem gtStep_more_iff (limit : Nat) (start_timestamp : Option Int)
    (resp : GtResp) :
    (∀ b : Int,
      gtStep limit start_timestamp resp = GtStep.more b ↔
        ∃ rows lastRow, resp = GtResp.ohlcv rows ∧
          rows.getLast? = some lastRow ∧ rows.length = limit ∧
          (∀ s, start_timestamp = some s → s < lastRow.ts) ∧
          b = lastRow.ts - 1) ∧
    (gtStep limit start_timestamp resp = GtStep.stop ↔
      resp = GtResp.invalid ∨
        ∃ rows, resp = GtResp.ohlcv rows ∧
          (rows = [] ∨ rows.length ≠ limit ∨
            ∃ lastRow s, rows.getLast? = some lastRow ∧
              start_timestamp = some s ∧ lastRow.ts ≤ s)) := by
  have key : ∀ b : Int,
      gtStep limit start_timestamp resp = GtStep.more b ↔
        ∃ rows lastRow, resp = GtResp.ohlcv rows ∧
          rows.getLast? = some lastRow ∧ rows.length = limit ∧
          (∀ s, start_timestamp = some s → s < lastRow.ts) ∧
          b = lastRow.ts - 1 := by
    intro b
    cases resp with
    | invalid => simp [gtStep]
    | ohlcv rows =>
      cases hlast : rows.getLast? with
      | none => simp [gtStep, hlast]
      | some lastRow =>
        simp only [gtStep, hlast]
        constructor
        · intro h
          split at h
          case isTrue hcond =>
            split at h
            case isTrue => exact absurd h (by simp)
            case isFalse hguard =>
              rw [Bool.and_eq_true, beq_iff_eq, startCheck_eq_true_iff]
                at hcond
              refine ⟨rows, lastRow, rfl, hlast, hcond.1, hcond.2, ?_⟩
              cases h; rfl
          case isFalse => exact absurd h (by simp)
        · rintro ⟨rows2, lastRow2, heq, hlast2, hlen, hstart, rfl⟩
          cases heq
          rw [hlast2] at hlast
          cases hlast
          rw [if_pos (by
            rw [Bool.and_eq_true, beq_iff_eq, startCheck_eq_true_iff]
            exact ⟨hlen, hstart⟩)]
          rw [if_neg (by
            cases hst : start_timestamp with
            | none => simp [pyTruthy]
            | some s =>
              have := hstart s hst
              simp [pyTruthy, not_le.mpr this])]
  have stopNotMore : gtStep limit start_timestamp resp = GtStep.stop ↔
      ∀ b : Int, ¬ gtStep limit start_timestamp resp = GtStep.more b := by
    cases h : gtStep limit start_timestamp resp with
    | stop => simp
    | more b => simp
  refine ⟨key, ?_⟩
  rw [stopNotMore]
  constructor
  · intro h
    cases resp with
    | invalid => exact Or.inl rfl
    | ohlcv rows =>
      refine Or.inr ⟨rows, rfl, ?_⟩
      cases hlast : rows.getLast? with
      | none => exact Or.inl (List.getLast?_eq_none_iff.mp hlast)
      | some lastRow =>
        by_cases hlen : rows.length = limit
        · refine Or.inr (Or.inr ⟨lastRow, ?_⟩)
          by_contra hno
          push_neg at hno
          have hstart : ∀ s, start_timestamp = some s → s < lastRow.ts :=
            fun s hs => hno s rfl hs
          exact h (lastRow.ts - 1) (((key (lastRow.ts - 1)).mpr
            ⟨rows, lastRow, rfl, hlast, hlen, hstart, rfl⟩))
        · exact Or.inr (Or.inl hlen)
  · rintro (h | ⟨rows2, heq, h⟩) b hmore
    · rcases (key b).mp hmore with ⟨rows, lastRow, heq, _⟩
      rw [h] at heq
      exact absurd heq (by simp)
    · rcases (key b).mp hmore with ⟨rows, lastRow, heq2, hlast, hlen, hstart, _⟩
      rw [heq] at heq2
      cases heq2
      rcases h with h | h | ⟨lastRow2, s, hlast2, hst, hle⟩
      · rw [h] at hlast; exact absurd hlast (by simp)
      · exact h hlen
      · rw [hlast2] at hlast
        cases hlast
        exact absurd (hstart s hst) (not_lt.mpr hle)

/-- Witness for C7: a two-record page of limit 2 whose oldest record
(timestamp 10) is newer than the start boundary 5 advances the cursor to
9; a one-record page stops. -/
theorem gtStep_more_iff_witness :
    gtStep 2 (some 5) (GtResp.ohlcv
        [⟨20, 1, 1, 1, 1, 0⟩, ⟨10, 1, 1, 1, 1, 0⟩]) = GtStep.more 9 ∧
      gtStep 2 (some 5) (GtResp.ohlcv [⟨20, 1, 1, 1, 1, 0⟩]) = GtStep.stop := by
  constructor
  · exact ((gtStep_more_iff 2 (some 5) (GtResp.ohlcv
      [⟨20, 1, 1, 1, 1, 0⟩, ⟨10, 1, 1, 1, 1, 0⟩])).1 9).mpr
      ⟨[⟨20, 1, 1, 1, 1, 0⟩, ⟨10, 1, 1, 1, 1, 0⟩], ⟨10, 1, 1, 1, 1, 0⟩,
        rfl, by decide, by decide, by intro s hs; cases hs; decide, by decide⟩
  · exact (gtStep_more_iff 2 (some 5) (GtResp.ohlcv
      [⟨20, 1, 1, 1, 1, 0⟩])).2.mpr
      (Or.inr ⟨[⟨20, 1, 1, 1, 1, 0⟩], rfl, Or.inr (Or.inl (by decide))⟩)

/-- Ordering of OHLCV rows by timestamp, the sort key of
`df.sort_values("timestamp")`. -/
def rowLE (a b : OhlcvRow) : Prop := a.ts ≤ b.ts

instance : DecidableRel rowLE :=
  fun a b => inferInstanceAs (Decidable (a.ts ≤ b.ts))

instance : IsTotal OhlcvRow rowLE := ⟨fun a b => Int.le_total a.ts b.ts⟩

instance : IsTrans OhlcvRow rowLE := ⟨fun _ _ _ => Int.le_trans⟩

/-- `df.sort_values("timestamp")`: some reordering of the rows that is
ascending in the timestamp column (embedded as an insertion sort; the
source's sort leaves the relative order of equal timestamps unspecified,
and no claim depends on it). -/
def sortRows (rows : List OhlcvRow) : List OhlcvRow :=
  List.insertionSort rowLE rows

/-- The records accumulated by the `get_price_bars` while-loop
(`all_ohlcv_list`), given the successive upstream responses.  A request
past the end of the modelled response list behaves as a failed
`_make_request` (the `{}` / invalid case, which breaks the loop). -/
def gtCollect (limit : Nat) (start_timestamp : Option Int) :
    List GtResp → List OhlcvRow → List OhlcvRow
  | [], acc => acc
  | resp :: rest, acc =>
    let rows := match resp with
      | GtResp.invalid => []
      | GtResp.ohlcv r => r
    match gtStep limit start_timestamp resp with
    | GtStep.stop => acc ++ rows
    | GtStep.more _ => gtCollect limit start_timestamp rest (acc ++ rows)

/-- The date-range filter applied after assembly:

       if start_timestamp or end_timestamp:
           df = df[(df["timestamp"] >= ... if start_timestamp else True) &
                   (df["timestamp"] <= ... if end_timestamp else True)]
-/
def gtRangeFilter (start_timestamp end_timestamp : Option Int)
    (rows : List OhlcvRow) : List OhlcvRow :=
  if pyTruthy start_timestamp || pyTruthy end_timestamp then
    rows.filter (fun r =>
      (if pyTruthy start_timestamp then
        decide (start_timestamp.getD 0 ≤ r.ts) else true) &&
      (if pyTruthy end_timestamp then
        decide (r.ts ≤ end_timestamp.getD 0) else true))
  else rows

/-- `GeckoTerminalClient.get_price_bars`, as a function of the successive
upstream responses: assemble all pages, return `None` when nothing was
assembled, otherwise sort ascending by timestamp and filter to the
requested date range.  (No de-duplication step appears in the source.) -/
def gt_get_price_bars (limit : Nat)
    (start_timestamp end_timestamp : Option Int)
    (responses : List GtResp) : Option (List OhlcvRow) :=
  let all_ohlcv_list := gtCollect limit start_timestamp responses []
  if all_ohlcv_list = [] then none
  else
    some (gtRangeFilter start_timestamp end_timestamp
      (sortRows all_ohlcv_list))

/-- A single OHLCV record at timestamp 100, used to exhibit a repeated
boundary record across two pages. -/
def dupRow : OhlcvRow := ⟨100, 1, 2, 1, 2, 5⟩

/-- C6 counterexample: with page size 1, two pages that both return the
same record (an overlap at a boundary record) assemble into a series that
holds that timestamp TWICE - the claimed de-duplication does not exist in
the code, and normalizing the overlapping pages does not equal
normalizing the single page. -/
theorem gt_normalize_keeps_duplicate_timestamps :
    gt_get_price_bars 1 none none
        [GtResp.ohlcv [dupRow], GtResp.ohlcv [dupRow]] =
      some [dupRow, dupRow] ∧
    gt_get_price_bars 1 none none [GtResp.ohlcv [dupRow]] = some [dupRow] ∧
    ¬ ((Option.getD (gt_get_price_bars 1 none none
        [GtResp.ohlcv [dupRow], GtResp.ohlcv [dupRow]]) []).map
          OhlcvRow.ts).Nodup := by
  refine ⟨by decide, by decide, by decide⟩

/-- C6 amended: every series `get_price_bars` returns is sorted ascending
by timestamp, and is a permutation of the range-filtered concatenation of
all fetched pages - every record is kept, duplicated timestamps
included. -/
theorem gt_normalize_sorted_perm (limit : Nat)
    (start_timestamp end_timestamp : Option Int) (responses : List GtResp)
    (rows : List OhlcvRow)
    (h : gt_get_price_bars limit start_timestamp end_timestamp responses =
      some rows) :
    rows.Sorted rowLE ∧
      rows.Perm (gtRangeFilter start_timestamp end_timestamp
        (gtCollect limit start_timestamp responses [])) := by
  rw [gt_get_price_bars] at h
  by_cases hempty : gtCollect limit start_timestamp responses [] = []
  · rw [if_pos hempty] at h
    exact absurd h (by simp)
  · rw [if_neg hempty] at h
    have hrows : rows = gtRangeFilter start_timestamp end_timestamp
        (sortRows (gtCollect limit start_timestamp responses [])) := by
      cases h; rfl
    subst hrows
    constructor
    · rw [gtRangeFilter]
      split
      · exact List.Pairwise.filter _
          (List.sorted_insertionSort rowLE _)
      · exact List.sorted_insertionSort rowLE _
    · rw [gtRangeFilter, gtRangeFilter]
      split
      · exact List.Perm.filter _
          (List.perm_insertionSort rowLE _)
      · exact List.perm_insertionSort rowLE _

/-- Witness for the amended C6 theorem at the duplicate-record input. -/
theorem gt_normalize_sorted_perm_witness :
    ([dupRow, dupRow] : List OhlcvRow).Sorted rowLE ∧
      List.Perm [dupRow, dupRow] (gtRangeFilter none none
        (gtCollect 1 none [GtResp.ohlcv [dupRow], GtResp.ohlcv [dupRow]]
          [])) := by
  exact gt_normalize_sorted_perm 1 none none
    [GtResp.ohlcv [dupRow], GtResp.ohlcv [dupRow]] [dupRow, dupRow]
    (by decide)

/- ----------------------------------------------------------------------
   Moralis and CoinGecko fetchers:
   `MoralisPriceFetcher.get_price_bars` (src/utils/moralis_price_fetcher.py
   lines 24-88) and `CoinGeckoPriceFetcher.get_price_bars`
   (src/utils/coingecko_price_fetcher.py lines 59-97).

   The Moralis pagination loop breaks on an empty `result` payload or a
   missing cursor, raises on a non-2xx response, and raises `ValueError`
   when nothing at all was fetched.  Raised
   `RequestException`/`ValueError`/`KeyError` exceptions are caught by

       except (...) as e:
           print(f"Price fetch failed: {e}, falling back to mock data")

   which builds a fabricated DataFrame (168 hourly rows for the default
   Moralis timeframe "1h"; 42 four-hour rows for CoinGecko): every OHLC
   field 100, volume 0.  Both fetchers then execute

       return PriceBar(pair_address, base_currency, token_symbol, df)

   on the success path AND on this fallback path - four positional
   arguments against the three-field `PriceBar` dataclass
   (src/models/price_bar.py: `token_address`, `base_token`, `data`).
   That raises `TypeError`, which no handler catches (`TypeError` is not
   in the caught tuple, and the fallback's raise happens inside the
   `except` block itself), so each `return` site raises instead of
   returning.
   ---------------------------------------------------------------------- -/

/-- One response of the Moralis OHLCV endpoint: a transport/HTTP failure
(`raise_for_status` raises), or a page with its `result` records and the
optional continuation cursor. -/
inductive MoralisResp where
  | fail
  | page (result : List OhlcvRow) (cursor : Option String)
deriving DecidableEq

/-- The pagination loop of `MoralisPriceFetcher.get_price_bars`: `none`
means an exception escaped the loop (transport failure, or a request past
the modelled responses).  Otherwise the concatenated records. -/
def moralisCollect : List MoralisResp → List OhlcvRow → Option (List OhlcvRow)
  | [], _acc => none
  | MoralisResp.fail :: _, _acc => none
  | MoralisResp.page result cursor :: rest, acc =>
    if result = [] then some acc
    else
      match cursor with
      | none => some (acc ++ result)
      | some _ => moralisCollect rest (acc ++ result)

/-- The fabricated fallback DataFrame built by the Moralis handler:
`periods` rows at hourly spacing from `start`, OHLC all 100, volume 0. -/
def moralisMockRows (start : Int) (periods : Nat) : List OhlcvRow :=
  (List.range periods).map (fun i => ⟨start + 3600 * i, 100, 100, 100, 100, 0⟩)

/-- The `__init__` parameter names of the `PriceBar` dataclass
(src/models/price_bar.py). -/
def priceBarFields : List String := ["token_address", "base_token", "data"]

/-- Python positional binding for a dataclass call: the call raises
`TypeError` as soon as more positional arguments are passed than there
are parameters. -/
def dataclassPositionalCall (fields : List String) (nargs : Nat) :
    Except String Unit :=
  if fields.length < nargs then
    Except.error "TypeError: too many positional arguments"
  else Except.ok ()

/-- `MoralisPriceFetcher.get_price_bars` for the default timeframe "1h"
(mock `periods` = 168), as a function of the successive upstream
responses.  Every path that reaches a `return` statement constructs
`PriceBar(pair_address, base_currency, token_symbol, df)` - four
positional arguments - so the fetch raises wherever the source intends to
return the fetched series or the mock fallback. -/
def moralis_get_price_bars (responses : List MoralisResp)
    (from_date : Int) : Except String (List OhlcvRow) :=
  match moralisCollect responses [] with
  | none =>
    match dataclassPositionalCall priceBarFields 4 with
    | Except.error e => Except.error e
    | Except.ok _ => Except.ok (moralisMockRows from_date 168)
  | some all_data =>
    if all_data = [] then
      match dataclassPositionalCall priceBarFields 4 with
      | Except.error e => Except.error e
      | Except.ok _ => Except.ok (moralisMockRows from_date 168)
    else
      match dataclassPositionalCall priceBarFields 4 with
      | Except.error e => Except.error e
      | Except.ok _ => Except.ok all_data

/-- The fabricated CoinGecko fallback DataFrame: 42 rows at four-hour
spacing from `start`, OHLC all 100, volume 0. -/
def coingeckoMockRows (start : Int) : List OhlcvRow :=
  (List.range 42).map (fun i => ⟨start + 14400 * i, 100, 100, 100, 100, 0⟩)

/-- `CoinGeckoPriceFetcher.get_price_bars`, as a function of the single
upstream OHLC payload; `none` embeds every raised-and-caught failure (no
CoinGecko id for the mint, transport error, non-2xx).  The `/ohlc`
endpoint carries no volume, so the success path sets every volume to 0;
both `return` sites construct `PriceBar` with four positional arguments
and therefore raise. -/
def coingecko_get_price_bars (resp : Option (List OhlcvRow))
    (start : Int) : Except String (List OhlcvRow) :=
  match resp with
  | none =>
    match dataclassPositionalCall priceBarFields 4 with
    | Except.error e => Except.error e
    | Except.ok _ => Except.ok (coingeckoMockRows start)
  | some data =>
    match dataclassPositionalCall priceBarFields 4 with
    | Except.error e => Except.error e
    | Except.ok _ => Except.ok (data.map (fun r => { r with v := 0 }))

/-- C5 counterexample: on an empty upstream payload (`result` empty on
the first page) the Moralis fetch does not report "no data" to its
caller: the mock-data fallback constructs `PriceBar` with four positional
arguments against the three-field dataclass, so the fetch raises an
uncaught `TypeError` - the caller receives an exception, neither a
`None`/empty outcome nor a series of any kind (`isOk` is false). -/
theorem moralis_empty_payload_raises_typeerror :
    moralis_get_price_bars [MoralisResp.page [] none] 0 =
      Except.error "TypeError: too many positional arguments" ∧
    (moralis_get_price_bars [MoralisResp.page [] none] 0).isOk = false ∧
    priceBarFields.length = 3 := by
  refine ⟨rfl, rfl, rfl⟩

/-- C5 amended: only the GeckoTerminal price-bar fetch reports failures
as "no data" (`None` whenever nothing was assembled).  The Moralis and
CoinGecko fetchers never report "no data" - and never deliver their
intended fabricated mock series either: on every input, failure or
success, the four-positional-argument `PriceBar` construction at their
`return` sites raises an uncaught `TypeError`. -/
theorem failed_fetch_outcomes (limit : Nat)
    (start_timestamp end_timestamp : Option Int) (responses : List GtResp)
    (hempty : gtCollect limit start_timestamp responses [] = [])
    (mresponses : List MoralisResp) (from_date : Int)
    (cgresp : Option (List OhlcvRow)) (cgstart : Int) :
    gt_get_price_bars limit start_timestamp end_timestamp responses =
        none ∧
      moralis_get_price_bars mresponses from_date =
        Except.error "TypeError: too many positional arguments" ∧
      coingecko_get_price_bars cgresp cgstart =
        Except.error "TypeError: too many positional arguments" := by
  refine ⟨?_, ?_, ?_⟩
  · rw [gt_get_price_bars, if_pos hempty]
  · rw [moralis_get_price_bars]
    split
    · rfl
    · split <;> rfl
  · cases cgresp with
    | none => rfl
    | some data => rfl

/-- Witness for the amended C5 theorem: a malformed first response makes
GeckoTerminal return `None`, while a failed first request makes the
Moralis fetch - and any failed CoinGecko lookup - raise the `PriceBar`
`TypeError`. -/
theorem failed_fetch_outcomes_witness :
    gt_get_price_bars 1000 none none [GtResp.invalid] = none ∧
      moralis_get_price_bars [MoralisResp.fail] 0 =
        Except.error "TypeError: too many positional arguments" ∧
      coingecko_get_price_bars none 0 =
        Except.error "TypeError: too many positional arguments" := by
  exact failed_fetch_outcomes 1000 none none [GtResp.invalid] (by decide)
    [MoralisResp.fail] 0 none 0

/- ----------------------------------------------------------------------
   Beta: `compute_beta_from_dataframes`
   (src/utils.py lines 317-347 and src/utils/analyzer.py lines 73-104)

       token_df = token_df.dropna(...).sort_values("timestamp")
       sol_df = sol_df.dropna(...).sort_values("timestamp")
       combined = pd.concat([token_series, sol_series], axis=1, join="inner")
       if combined.empty or combined.shape[0] < 2: return float("nan")
       returns = combined.pct_change().dropna()
       covariance = returns["token"].cov(returns["sol"])
       variance = returns["sol"].var()
       beta = covariance / variance if variance != 0 else float("nan")

   A close-price series is a list of (timestamp, close) pairs, timestamps
   unique within a series (PriceBar invariant; the two-series inner
   concat is only defined on unique indexes).  `pandas` `cov`/`var` use
   ddof=1 and yield NaN (here `none`) on fewer than two points; NaN
   propagates through `variance != 0` (True for NaN) and the division,
   so a NaN covariance or variance yields a NaN beta.
   ---------------------------------------------------------------------- -/

/-- Ordering of (timestamp, close) pairs by timestamp. -/
def pairLE (a b : Int × Rat) : Prop := a.1 ≤ b.1

instance : DecidableRel pairLE :=
  fun a b => inferInstanceAs (Decidable (a.1 ≤ b.1))

instance : IsTotal (Int × Rat) pairLE := ⟨fun a b => Int.le_total a.1 b.1⟩

instance : IsTrans (Int × Rat) pairLE := ⟨fun _ _ _ => Int.le_trans⟩

/-- `df.sort_values("timestamp")` on a close-price series. -/
def sortSeries (s : List (Int × Rat)) : List (Int × Rat) :=
  List.insertionSort pairLE s

/-- The two-series inner join of the concat: walk the sorted first index
and keep the timestamps that the second index also holds, pairing the two
close values. -/
def innerJoin2 (token sol : List (Int × Rat)) : List (Rat × Rat) :=
  (sortSeries token).filterMap (fun p =>
    ((sortSeries sol).find? (fun q => q.1 == p.1)).map (fun q => (p.2, q.2)))

/-- `combined.pct_change().dropna()`: percentage-change returns of each
column over consecutive rows (the first row's NaN is dropped). -/
def pctChangeRows (rows : List (Rat × Rat)) : List (Rat × Rat) :=
  (rows.zip rows.tail).map (fun pq =>
    ((pq.2.1 - pq.1.1) / pq.1.1, (pq.2.2 - pq.1.2) / pq.1.2))

/-- Mean of a list of rationals (`sum / len`). -/
def listMean (xs : List Rat) : Rat := xs.sum / (xs.length : Rat)

/-- `pandas` sample variance (ddof=1): NaN (`none`) on fewer than two
points. -/
def sampleVar (xs : List Rat) : Option Rat :=
  if xs.length < 2 then none
  else some (((xs.map (fun x => (x - listMean xs) ^ 2)).sum) /
    ((xs.length : Rat) - 1))

/-- `pandas` sample covariance (ddof=1) of paired columns: NaN (`none`)
on fewer than two rows. -/
def sampleCov (ps : List (Rat × Rat)) : Option Rat :=
  if ps.length < 2 then none
  else some (((ps.map (fun p => (p.1 - listMean (ps.map Prod.fst)) *
      (p.2 - listMean (ps.map Prod.snd)))).sum) / ((ps.length : Rat) - 1))

/-- `compute_beta_from_dataframes`; `none` embeds `float("nan")`. -/
def compute_beta_from_dataframes (token sol : List (Int × Rat)) :
    Option Rat :=
  if (innerJoin2 token sol).length < 2 then none
  else
    match sampleCov (pctChangeRows (innerJoin2 token sol)),
        sampleVar ((pctChangeRows (innerJoin2 token sol)).map Prod.snd) with
    | some covariance, some variance =>
        if variance = 0 then none else some (covariance / variance)
    | _, _ => none

theorem sampleVar_eq_some_length (xs : List Rat) (v : Rat)
    (h : sampleVar xs = some v) : 2 ≤ xs.length := by
  rw [sampleVar] at h
  by_cases hl : xs.length < 2
  · rw [if_pos hl] at h; exact absurd h (by simp)
  · omega

theorem pctChangeRows_length (rows : List (Rat × Rat)) :
    (pctChangeRows rows).length = rows.length - 1 := by
  rw [pctChangeRows, List.length_map, List.length_zip, List.length_tail]
  omega

/-- C8: beta is the ddof-1 sample covariance of the percentage-change
returns of the two series over their inner-joined overlapping timestamps,
divided by the sample variance of the benchmark returns; it is NaN
(`none`), never a division error, when fewer than 2 rows overlap or the
benchmark return variance is zero (or is itself NaN); and every joined row
pairs the two series' close values recorded at one common timestamp. -/
theorem compute_beta_spec (token sol : List (Int × Rat)) :
    ((innerJoin2 token sol).length < 2 →
      compute_beta_from_dataframes token sol = none) ∧
    (sampleVar ((pctChangeRows (innerJoin2 token sol)).map Prod.snd) =
        some 0 →
      compute_beta_from_dataframes token sol = none) ∧
    (∀ covariance variance,
      sampleCov (pctChangeRows (innerJoin2 token sol)) = some covariance →
      sampleVar ((pctChangeRows (innerJoin2 token sol)).map Prod.snd) =
        some variance →
      variance ≠ 0 →
      compute_beta_from_dataframes token sol =
        some (covariance / variance)) ∧
    (∀ x y, (x, y) ∈ innerJoin2 token sol →
      ∃ t, (t, x) ∈ token ∧ (t, y) ∈ sol) := by
  have hlen : ∀ v, sampleVar ((pctChangeRows (innerJoin2 token sol)).map
      Prod.snd) = some v → ¬ (innerJoin2 token sol).length < 2 := by
    intro v hv
    have h2 := sampleVar_eq_some_length _ _ hv
    rw [List.length_map, pctChangeRows_length] at h2
    omega
  have hcovlen : ∀ v, sampleVar ((pctChangeRows (innerJoin2 token sol)).map
      Prod.snd) = some v →
      ¬ (pctChangeRows (innerJoin2 token sol)).length < 2 := by
    intro v hv
    have h2 := sampleVar_eq_some_length _ _ hv
    rw [List.length_map] at h2
    omega
  refine ⟨?_, ?_, ?_, ?_⟩
  · intro h
    rw [compute_beta_from_dataframes, if_pos h]
  · intro h
    rw [compute_beta_from_dataframes, if_neg (hlen 0 h), h]
    cases hcov : sampleCov (pctChangeRows (innerJoin2 token sol)) with
    | none => rfl
    | some covariance => simp
  · intro covariance variance hcov hvar hne
    rw [compute_beta_from_dataframes, if_neg (hlen variance hvar), hcov,
      hvar]
    simp [hne]
  · intro x y hmem
    rw [innerJoin2] at hmem
    rcases List.mem_filterMap.mp hmem with ⟨p, hp, hfp⟩
    rcases Option.map_eq_some'.mp hfp with ⟨q, hq, hpq⟩
    have hq1 : q.1 = p.1 := by
      have := List.find?_some hq
      simpa using this
    have hqmem : q ∈ sortSeries sol := List.mem_of_find?_eq_some hq
    have hx : x = p.2 := by cases hpq; rfl
    have hy : y = q.2 := by cases hpq; rfl
    refine ⟨p.1, ?_, ?_⟩
    · have : p ∈ token :=
        ((List.perm_insertionSort pairLE token).mem_iff).mp hp
      rw [hx]
      simpa using this
    · have : q ∈ sol :=
        ((List.perm_insertionSort pairLE sol).mem_iff).mp hqmem
      rw [hy, ← hq1]
      simpa using this

/-- Witness for C8 at a zero-variance benchmark: the token doubles each
hour and the benchmark doubles each hour, so benchmark returns are
constantly 1, their sample variance is 0, and beta is NaN (`none`). -/
theorem compute_beta_spec_witness :
    sampleVar ((pctChangeRows (innerJoin2
        [((1 : Int), (10 : Rat)), (2, 20), (3, 40)]
        [((1 : Int), (5 : Rat)), (2, 10), (3, 20)])).map Prod.snd) =
      some 0 ∧
    compute_beta_from_dataframes
        [((1 : Int), (10 : Rat)), (2, 20), (3, 40)]
        [((1 : Int), (5 : Rat)), (2, 10), (3, 20)] = none := by
  have h1 : innerJoin2
      [((1 : Int), (10 : Rat)), (2, 20), (3, 40)]
      [((1 : Int), (5 : Rat)), (2, 10), (3, 20)] =
      [(10, 5), (20, 10), (40, 20)] := by
    simp +decide [innerJoin2, sortSeries, List.insertionSort,
      List.orderedInsert, pairLE, List.filterMap_cons, List.find?]
  have h2 : pctChangeRows [((10 : Rat), (5 : Rat)), (20, 10), (40, 20)] =
      [(1, 1), (1, 1)] := by
    simp [pctChangeRows]
    norm_num
  have hvar : sampleVar ((pctChangeRows (innerJoin2
      [((1 : Int), (10 : Rat)), (2, 20), (3, 40)]
      [((1 : Int), (5 : Rat)), (2, 10), (3, 20)])).map Prod.snd) =
      some 0 := by
    rw [h1, h2]
    simp [sampleVar, listMean]
  exact ⟨hvar, (compute_beta_spec
    [((1 : Int), (10 : Rat)), (2, 20), (3, 40)]
    [((1 : Int), (5 : Rat)), (2, 10), (3, 20)]).2.1 hvar⟩

/- ----------------------------------------------------------------------
   Volatility: `calculate_cross_price_volatility_from_df`
   (src/utils.py lines 171-233)

       cross_df = cross_df.dropna(...).sort_values("timestamp")
       max_time = cross_df['timestamp'].max()
       for days_interval in [3, 7, 14]:
           if pd.isna(max_time): metrics[...] = np.nan; continue
           start_time = max_time - timedelta(days=days_interval)
           filtered_df = cross_df[cross_df['timestamp'] >= start_time]
           if filtered_df.empty or len(filtered_df) < 2: ... np.nan; continue
           filtered_df['log_return'] = np.log(filtered_df['close'] /
                                              filtered_df['close'].shift(1))
           volatility = filtered_df['log_return'].std() * np.sqrt(365 * 24)

   Timestamps are embedded as epoch seconds (`timedelta(days=d)` is
   `86400 * d`).  The transcendental `np.log` and `np.sqrt` are embedded
   as parameters `logF`/`sqrtF : Rat → Rat`; `Series.std()` is
   `sqrtF` of the ddof-1 sample variance, NaN (`none`) on fewer than two
   non-NaN values (the shifted first row is NaN and is skipped).
   ---------------------------------------------------------------------- -/

/-- The one-period log returns `np.log(close / close.shift(1))` of a close
column, the NaN first entry dropped (std skips it). -/
def logReturns (logF : Rat → Rat) (closes : List Rat) : List Rat :=
  (closes.zip closes.tail).map (fun pq => logF (pq.2 / pq.1))

/-- The rows of the series that lie in the window of the last `days` days
measured backward from the latest timestamp (empty for an empty series). -/
def windowRows (cross : List (Int × Rat)) (days : Nat) : List (Int × Rat) :=
  match (cross.map Prod.fst).maximum? with
  | none => []
  | some max_time =>
    (sortSeries cross).filter
      (fun p => decide (max_time - 86400 * (days : Int) ≤ p.1))

/-- The volatility entry of `calculate_cross_price_volatility_from_df` for
one window length `days`; the source computes it for each
`days ∈ [3, 7, 14]`.  `none` embeds `np.nan`. -/
def calculate_cross_price_volatility (logF sqrtF : Rat → Rat)
    (cross : List (Int × Rat)) (days : Nat) : Option Rat :=
  match (cross.map Prod.fst).maximum? with
  | none => none
  | some max_time =>
    let filtered := (sortSeries cross).filter
      (fun p => decide (max_time - 86400 * (days : Int) ≤ p.1))
    if filtered.length < 2 then none
    else
      match sampleVar (logReturns logF (filtered.map Prod.snd)) with
      | none => none
      | some variance => some (sqrtF variance * sqrtF (365 * 24))

theorem sampleVar_pair_same (a : Rat) : sampleVar [a, a] = some 0 := by
  simp [sampleVar, listMean]

/-- C9: for every close-price series and window length, the volatility
metric is the annualized (`* sqrtF (365*24)`, hourly bars) sample standard
deviation of the log returns of consecutive closes inside the window
measured backward from the latest timestamp; it is NaN (`none`), not zero,
whenever the window holds fewer than 2 usable points; and on the three
hourly closes 100, 110, 121 - whose two log returns both equal
`logF (11/10)` - it is exactly 0. -/
theorem cross_price_volatility_spec (logF sqrtF : Rat → Rat) :
    (∀ cross days, (windowRows cross days).length < 2 →
      calculate_cross_price_volatility logF sqrtF cross days = none) ∧
    (∀ cross days, 2 ≤ (windowRows cross days).length →
      calculate_cross_price_volatility logF sqrtF cross days =
        (sampleVar (logReturns logF
            ((windowRows cross days).map Prod.snd))).map
          (fun variance => sqrtF variance * sqrtF (365 * 24))) ∧
    (sqrtF 0 = 0 →
      calculate_cross_price_volatility logF sqrtF
        [(0, 100), (3600, 110), (7200, 121)] 3 = some 0) := by
  have hwin : ∀ cross days, calculate_cross_price_volatility logF sqrtF
      cross days =
      match (cross.map Prod.fst).maximum? with
      | none => none
      | some _ =>
        if (windowRows cross days).length < 2 then none
        else
          match sampleVar (logReturns logF
              ((windowRows cross days).map Prod.snd)) with
          | none => none
          | some variance => some (sqrtF variance * sqrtF (365 * 24)) := by
    intro cross days
    rw [calculate_cross_price_volatility, windowRows]
    cases (cross.map Prod.fst).maximum? with
    | none => rfl
    | some m => rfl
  refine ⟨?_, ?_, ?_⟩
  · intro cross days h
    rw [hwin cross days]
    cases hm : (cross.map Prod.fst).maximum? with
    | none => rfl
    | some m => rw [if_pos h]
  · intro cross days h
    rw [hwin cross days]
    cases hm : (cross.map Prod.fst).maximum? with
    | none =>
      exfalso
      rw [windowRows, hm] at h
      simp at h
    | some m =>
      rw [if_neg (by omega)]
      cases sampleVar (logReturns logF
          ((windowRows cross days).map Prod.snd)) with
      | none => rfl
      | some variance => rfl
  · intro hsqrt
    have hmax : (([((0 : Int), (100 : Rat)), (3600, 110),
        (7200, 121)]).map Prod.fst).maximum? = some 7200 := by decide
    have hwr : windowRows [((0 : Int), (100 : Rat)), (3600, 110),
        (7200, 121)] 3 = [((0 : Int), (100 : Rat)), (3600, 110),
        (7200, 121)] := by
      rw [windowRows, hmax]
      simp +decide [sortSeries, List.insertionSort, List.orderedInsert,
        pairLE]
    have hret : logReturns logF
        ((windowRows [((0 : Int), (100 : Rat)), (3600, 110),
          (7200, 121)] 3).map Prod.snd) =
        [logF (11 / 10), logF (11 / 10)] := by
      rw [hwr]
      simp [logReturns]
      norm_num
    rw [hwin [((0 : Int), (100 : Rat)), (3600, 110), (7200, 121)] 3, hmax]
    simp only
    rw [if_neg (by rw [hwr]; decide), hret, sampleVar_pair_same]
    show some (sqrtF 0 * sqrtF (365 * 24)) = some 0
    rw [hsqrt, zero_mul]

/-- Witness for C9, instantiating the transcendental parameters with the
identity (which does map 0 to 0): the metric on the closes 100, 110, 121
is exactly 0. -/
theorem cross_price_volatility_spec_witness :
    calculate_cross_price_volatility id id
        [(0, 100), (3600, 110), (7200, 121)] 3 = some 0 := by
  exact (cross_price_volatility_spec id id).2.2 rfl

/- ----------------------------------------------------------------------
   Tolerance-mode alignment.

   No tolerance-mode aligner exists under src/ - the only join implemented
   there is the exact-timestamp inner join above - so this component is
   modelled from the specification text (section 4.3, "Tolerance mode"):
   pick a bucket width, floor every timestamp to its bucket boundary,
   build the bucket axis from the minimum to the maximum observed bucket,
   and reindex each series onto the axis with forward-fill limited to one
   bucket; rows left unfilled are dropped before analytics.
   Timestamps and bucket widths are naturals (epoch seconds).
   ---------------------------------------------------------------------- -/

/-- Modelled from the spec: "floor every timestamp to the bucket
boundary" for a bucket width `delta`. -/
def bucketFloor (delta t : Nat) : Nat := t / delta * delta

/-- Modelled from the spec: the canonical bucket axis, the buckets from
`lo` to `hi` in steps of `delta`. -/
def bucketAxis (delta lo hi : Nat) : List Nat :=
  (List.range ((hi - lo) / delta + 1)).map (fun i => lo + i * delta)

/-- Modelled from the spec: the observation a series puts into bucket `b`
(the last one there, when several timestamps floor into the same
bucket). -/
def bucketValue (delta : Nat) (s : List (Nat × Rat)) (b : Nat) :
    Option Rat :=
  ((s.filter (fun p => bucketFloor delta p.1 == b)).getLast?).map Prod.snd

/-- Modelled from the spec: forward-fill with a lookback limit of exactly
one bucket - an axis point missing its own observation takes the raw
observation of the immediately preceding bucket, if any; a filled value
never propagates further. -/
def ffill1At (val : Nat → Option Rat) (delta lo b : Nat) : Option Rat :=
  match val b with
  | some v => some v
  | none => if b = lo then none else val (b - delta)

/-- Modelled from the spec: one series reindexed onto the bucket axis
`lo, lo+delta, ..., hi` with one-bucket forward fill. -/
def alignToleranceSeries (delta : Nat) (s : List (Nat × Rat))
    (lo hi : Nat) : List (Nat × Option Rat) :=
  (bucketAxis delta lo hi).map
    (fun b => (b, ffill1At (bucketValue delta s) delta lo b))

/-- Modelled from the spec: axis points left without a value are dropped
before analytics. -/
def dropUnfilled (rows : List (Nat × Option Rat)) : List (Nat × Rat) :=
  rows.filterMap (fun p => p.2.map (fun v => (p.1, v)))

theorem bucketValue_some (delta : Nat) (s : List (Nat × Rat)) (b : Nat)
    (v : Rat) (h : bucketValue delta s b = some v) :
    ∃ T, (T, v) ∈ s ∧ bucketFloor delta T = b := by
  rw [bucketValue] at h
  rcases Option.map_eq_some'.mp h with ⟨p, hp, hv⟩
  have hmem : p ∈ s.filter (fun p => bucketFloor delta p.1 == b) := by
    rcases List.mem_getLast?_eq_getLast hp with ⟨hne, hx⟩
    rw [hx]
    exact List.getLast_mem hne
  have hfl := List.mem_filter.mp hmem
  refine ⟨p.1, ?_, by simpa using hfl.2⟩
  rw [← hv]
  simpa using hfl.1

theorem mem_bucketAxis_exists (delta lo hi b : Nat)
    (h : b ∈ bucketAxis delta lo hi) : ∃ i, b = lo + i * delta := by
  rw [bucketAxis] at h
  rcases List.mem_map.mp h with ⟨i, _, hb⟩
  exact ⟨i, hb.symm⟩

/-- C3 (modelled from the spec): in tolerance mode, every value standing
at an axis bucket `b` originates from an observation of the series whose
own bucket is `b` or the bucket one width earlier - a value fills a gap
only within one bucket width of its own timestamp - and a bucket more
than one bucket away from every observation stays unfilled and is dropped
from the analytics table. -/
theorem alignTolerance_ffill_one_bucket (delta : Nat) (hdelta : 0 < delta)
    (s : List (Nat × Rat)) (lo hi b : Nat) :
    (∀ v, (b, some v) ∈ alignToleranceSeries delta s lo hi →
      ∃ T, (T, v) ∈ s ∧
        (bucketFloor delta T = b ∨ bucketFloor delta T + delta = b)) ∧
    ((∀ p ∈ s, bucketFloor delta p.1 ≠ b ∧
        bucketFloor delta p.1 + delta ≠ b) →
      b ∉ (dropUnfilled (alignToleranceSeries delta s lo hi)).map
        Prod.fst) := by
  have part1 : ∀ v, (b, some v) ∈ alignToleranceSeries delta s lo hi →
      ∃ T, (T, v) ∈ s ∧
        (bucketFloor delta T = b ∨ bucketFloor delta T + delta = b) := by
    intro v hmem
    rw [alignToleranceSeries] at hmem
    rcases List.mem_map.mp hmem with ⟨bb, hbb, heq⟩
    rw [Prod.mk.injEq] at heq
    obtain ⟨hb1, hfill⟩ := heq
    rw [hb1] at hfill hbb
    rw [ffill1At] at hfill
    cases hval : bucketValue delta s b with
    | some w =>
      rw [hval] at hfill
      have hw : w = v := by simpa using hfill
      subst hw
      rcases bucketValue_some delta s b w hval with ⟨T, hT, hTb⟩
      exact ⟨T, hT, Or.inl hTb⟩
    | none =>
      rw [hval] at hfill
      by_cases hlo : b = lo
      · rw [if_pos hlo] at hfill
        exact absurd hfill (by simp)
      · rw [if_neg hlo] at hfill
        rcases bucketValue_some delta s (b - delta) v hfill with ⟨T, hT, hTb⟩
        rcases mem_bucketAxis_exists delta lo hi b hbb with ⟨i, hi2⟩
        have hdle : delta ≤ b := by
          rcases Nat.eq_zero_or_pos i with hz | hpos
          · exact absurd (by rw [hz] at hi2; simpa using hi2) hlo
          · have : delta ≤ i * delta := Nat.le_mul_of_pos_left delta hpos
            omega
        exact ⟨T, hT, Or.inr (by omega)⟩
  refine ⟨part1, ?_⟩
  intro hgap hmem
  rcases List.mem_map.mp hmem with ⟨q, hq, hqb⟩
  rcases List.mem_filterMap.mp hq with ⟨p, hp, hpq⟩
  rcases Option.map_eq_some'.mp hpq with ⟨w, hw, hqdef⟩
  have hpmem : (b, some w) ∈ alignToleranceSeries delta s lo hi := by
    have hp1 : p.1 = b := by rw [← hqdef] at hqb; simpa using hqb
    have : p = (p.1, p.2) := rfl
    rw [this, hp1, hw] at hp
    exact hp
  rcases part1 w hpmem with ⟨T, hT, hTb⟩
  rcases hTb with hTb | hTb
  · exact (hgap (T, w) hT).1 hTb
  · exact (hgap (T, w) hT).2 hTb

/-- Witness for C3 with bucket width 600 on the series with observations
at timestamps 0 and 1800: the observation at 0 fills bucket 600 (one
bucket ahead), while bucket 1200 - more than one bucket from both
observations - is dropped. -/
theorem alignTolerance_ffill_one_bucket_witness :
    (∃ T, (T, (5 : Rat)) ∈ [((0 : Nat), (5 : Rat)), (1800, 7)] ∧
      (bucketFloor 600 T = 600 ∨ bucketFloor 600 T + 600 = 600)) ∧
    (1200 : Nat) ∉ (dropUnfilled (alignToleranceSeries 600
      [((0 : Nat), (5 : Rat)), (1800, 7)] 0 1800)).map Prod.fst := by
  constructor
  · exact (alignTolerance_ffill_one_bucket 600 (by decide)
      [((0 : Nat), (5 : Rat)), (1800, 7)] 0 1800 600).1 5 (by decide)
  · exact (alignTolerance_ffill_one_bucket 600 (by decide)
      [((0 : Nat), (5 : Rat)), (1800, 7)] 0 1800 1200).2 (by decide)

/- ----------------------------------------------------------------------
   Positions by wallet: `SolanaMeteoraClient.get_all_positions_for_user`
   (src/clients/solana/meteora.py lines 141-186) against the `Position`
   dataclass (src/models/position.py lines 4-11).

   The dataclass:

       @dataclass
       class Position:
           position_id: str
           pair_id: str
           token0_qty: float
           token1_qty: float
           lower_bound: Optional[float] = None
           upper_bound: Optional[float] = None

   The construction site, executed once per record of a pool's
   `userPositions`:

       Position(address=..., pool_address=..., token0_amount=...,
                token1_amount=..., lower_bound=..., upper_bound=...,
                token_x=..., token_y=...)

   In Python, a call with a keyword argument that is not a parameter of
   `Position.__init__` raises `TypeError` immediately.  The only handler
   around the loop is `except requests.exceptions.RequestException`, so a
   `TypeError` (or the `ValueError` of a `float(...)` on a malformed
   amount) propagates out of the fetch.
   ---------------------------------------------------------------------- -/

/-- The `__init__` parameter names of the `Position` dataclass. -/
def positionFields : List String :=
  ["position_id", "pair_id", "token0_qty", "token1_qty",
    "lower_bound", "upper_bound"]

/-- The keyword-argument names used at the `Position(...)` construction
site in `get_all_positions_for_user`. -/
def positionCallKeywords : List String :=
  ["address", "pool_address", "token0_amount", "token1_amount",
    "lower_bound", "upper_bound", "token_x", "token_y"]

/-- Python keyword binding for a dataclass call: the call raises
`TypeError` as soon as some keyword is not a parameter name. -/
def dataclassCall (fields kwargs : List String) : Except String Unit :=
  match kwargs.find? (fun k => !(fields.contains k)) with
  | some k => Except.error ("TypeError: unexpected keyword argument " ++ k)
  | none => Except.ok ()

/-- The record loop of `get_all_positions_for_user` over one pool's
`userPositions` (each record triggers one `Position(...)` call); an
uncaught exception aborts the whole fetch. -/
def buildPoolPositions : Nat → Except String (List Unit)
  | 0 => Except.ok []
  | n + 1 =>
    match dataclassCall positionFields positionCallKeywords with
    | Except.error e => Except.error e
    | Except.ok u =>
      match buildPoolPositions n with
      | Except.error e => Except.error e
      | Except.ok rest => Except.ok (u :: rest)

/-- `get_all_positions_for_user`, as a function of the decoded response
payload - a list of `(pool_address, number of userPositions records)` -
after a successful HTTP round trip (transport errors are caught earlier
and answered with `{}`).  Pools whose position list ends up empty are not
added to the result (`if positions:`). -/
def get_all_positions_for_user (payload : List (String × Nat)) :
    Except String (List (String × Nat)) :=
  match payload with
  | [] => Except.ok []
  | (pool_address, n) :: rest =>
    match buildPoolPositions n with
    | Except.error e => Except.error e
    | Except.ok positions =>
      match get_all_positions_for_user rest with
      | Except.error e => Except.error e
      | Except.ok acc =>
        if positions.length = 0 then Except.ok acc
        else Except.ok ((pool_address, positions.length) :: acc)

/-- C10: the skip-malformed-and-continue claim is false on the code - the
fetch is not even total on well-formed payloads.  On a payload holding a
single pool with a single position record, the `Position(...)` call uses
the keyword `address`, which is not a field of the `Position` dataclass
(`position_id`, `pair_id`, ...), so a `TypeError` is raised and - with
only `RequestException` handled - the whole fetch aborts instead of
skipping the record; an empty payload is the only way to avoid it. -/
theorem get_all_positions_raises_on_any_record :
    get_all_positions_for_user [("pool-a", 1)] =
      Except.error "TypeError: unexpected keyword argument address" ∧
      "address" ∉ positionFields ∧
      get_all_positions_for_user [] = Except.ok [] := by
  refine ⟨rfl, by decide, rfl⟩
